import Mathlib

/-!
Shallow embedding of `fetchcode/__init__.py`: the `Response` value object,
the HTTP(S) adapter `fetch_http`, the FTP adapter `fetch_ftp`, and the
dispatcher `fetch`.  Network transports (`requests`, `ftplib`), the
`kiss_headers` header parser and the `mimetypes` database are external
collaborators: they are modelled as inputs (an environment mapping URLs to
responses / servers / MIME tables).  The filesystem and the observable side
effects (files written, network calls made, FTP control connections opened
and closed) are threaded through explicitly as a `World` state.
-/

/-- Errors a call can raise.  `unsupportedScheme` models
`Exception("Not a supported/known scheme.")`; `valueError` models the
`ValueError` raised by Python's `int()` on a non-numeric string;
`transportError` models an exception raised by the underlying HTTP/FTP
transport (for the claims only the `RETR` mid-transfer failure is needed). -/
inductive PyError where
  | unsupportedScheme
  | valueError
  | transportError
deriving DecidableEq, Repr

/-- The `Response` class of the source: a plain record whose four fields are
assigned once in `__init__` (`self.url = url; self.size = size;
self.content_type = content_type; self.location = location`) and never
reassigned anywhere in the library. -/
structure Response where
  location : String
  content_type : Option String
  size : Option Int
  url : String
deriving DecidableEq, Repr

/-- The `content-disposition` header as delivered by
`parse_it(r.headers).get("content-disposition")` (kiss_headers is a
collaborator): its `filename*` and `filename` attributes, each possibly
absent. -/
structure ContentDisposition where
  filenameStar : Option String
  filename : Option String
deriving DecidableEq, Repr

/-- The HTTP response the `requests` transport delivers for a URL:
status code, the parsed `content-disposition` header (absent if the header
is missing), the raw `content-type` and `content-length` header values, and
the body bytes (`r.content`). -/
structure HttpResponse where
  status : Nat
  contentDisposition : Option ContentDisposition
  contentType : Option String
  contentLength : Option String
  body : List Nat
deriving DecidableEq, Repr

/-- An FTP server (one per netloc): `size` models `ftplib.FTP.size` on the
full remote path (`none` when the server's reply carries no size, i.e. is
not a `213` reply); `retr` models `ftp.cwd(directory)` followed by
`ftp.retrbinary(command, f.write)`: given the working directory and the
`RETR <filename>` command string it yields the transferred bytes, or `none`
when the retrieval raises mid-transfer. -/
structure FtpServer where
  size : String → Option Int
  retr : String → String → Option (List Nat)

/-- The local `mimetypes.MimeTypes()` database: `typeFor` is the MIME type
`guess_type` derives from a filename's extension (absent when the extension
has no mapping), `encodingFor` the encoding component of the guess. -/
structure MimeDB where
  typeFor : String → Option String
  encodingFor : String → Option String

/-- The observable machine state: existing directories, files on disk
(newest write first; `fileContent` reads the newest), the counter feeding
fresh temporary-file names, and counters of network requests made and FTP
control connections opened and closed. -/
structure World where
  dirs : List String
  files : List (String × List Nat)
  nextTemp : Nat
  netCalls : Nat
  ftpOpened : Nat
  ftpClosed : Nat
deriving DecidableEq, Repr

/-- `Path.is_dir(location)`. -/
def isDir (w : World) (p : String) : Bool := w.dirs.contains p

/-- `open(location, "wb")` followed by a full write: create or truncate the
file at `p` with content `b`. -/
def writeFile (w : World) (p : String) (b : List Nat) : World :=
  { w with files := (p, b) :: w.files }

/-- Read the current content of the file at `p`, newest write first. -/
def fileContent (w : World) (p : String) : Option (List Nat) :=
  (w.files.find? (fun e => e.1 == p)).map (fun e => e.2)

/-- The fresh name `tempfile.NamedTemporaryFile(delete=False)` produces when
no directory is given (the system temporary directory). -/
def tempName (n : Nat) : String := "/tmp/tmp" ++ toString n

/-- The fresh name `tempfile.NamedTemporaryFile(dir=location, delete=False)`
produces inside the directory `location`. -/
def tempPathIn (dir : String) (n : Nat) : String := dir ++ "/tmp" ++ toString n

/-- Whether a string starts with the single character `c`. -/
def headIs (s : String) (c : Char) : Bool := s.toList.head? == some c

/-- Whether a string ends with the single character `c`. -/
def lastIs (s : String) (c : Char) : Bool := s.toList.getLast? == some c

/-- Split a character list at every occurrence of `c` (Python
`str.split(c)` / Lean `String.splitOn`, for one-character separators). -/
def splitOnCharList (c : Char) : List Char → List (List Char)
  | [] => [[]]
  | a :: rest =>
    match splitOnCharList c rest with
    | [] => [[]]
    | g :: gs => if a == c then [] :: g :: gs else (a :: g) :: gs

/-- Split a string at every occurrence of the character `c`. -/
def splitOnChar (c : Char) (s : String) : List String :=
  (splitOnCharList c s.toList).map String.mk

/-- Python `s.split(c, 1)[0]`: the text before the first occurrence of `c`. -/
def beforeChar (c : Char) (s : String) : String :=
  String.mk (s.toList.takeWhile (fun a => a != c))

/-- `pathlib`'s `/` join: joining with an empty segment leaves the path
unchanged, joining with an absolute segment replaces the whole path. -/
def pyPathJoin (dir name : String) : String :=
  if name = "" then dir
  else if headIs name '/' then name
  else if lastIs dir '/' then dir ++ name
  else dir ++ "/" ++ name

/-- Characters allowed after the first character of a URL scheme
(`urllib.parse.scheme_chars`). -/
def isSchemeChar (c : Char) : Bool :=
  c.isAlpha || c.isDigit || c == '+' || c == '-' || c == '.'

/-- The scheme-splitting step of `urllib.parse.urlsplit`: take the text
before the first `:` when it starts with an ASCII letter and continues with
scheme characters, lowercase it, and return it with the remainder;
otherwise the scheme is empty and the URL is left whole. -/
def splitScheme (url : String) : String × String :=
  let cs := url.toList
  match cs.findIdx? (· == ':') with
  | none => ("", url)
  | some i =>
    if i = 0 then ("", url)
    else
      let pre := cs.take i
      match pre with
      | [] => ("", url)
      | c :: rest =>
        if c.isAlpha && rest.all isSchemeChar then
          (String.mk (pre.map Char.toLower), String.mk (cs.drop (i + 1)))
        else ("", url)

/-- `urllib.parse._splitnetloc`: when the remainder starts with `//`, the
netloc runs from index 2 up to the first of `/`, `?`, `#`. -/
def splitNetloc (rest : String) : String × String :=
  let cs := (rest.drop 2).toList
  match cs.findIdx? (fun c => c == '/' || c == '?' || c == '#') with
  | none => (rest.drop 2, "")
  | some i => (String.mk (cs.take i), String.mk (cs.drop i))

/-- Index of the first occurrence of `c` in `cs` at or after `start`. -/
def findFrom (cs : List Char) (c : Char) (start : Nat) : Option Nat :=
  ((cs.drop start).findIdx? (· == c)).map (· + start)

/-- Index of the last occurrence of `c` in `cs`. -/
def lastIdxOf (cs : List Char) (c : Char) : Option Nat :=
  (cs.reverse.findIdx? (· == c)).map (fun i => cs.length - 1 - i)

/-- `urllib.parse._splitparams`, keeping only the path part: drop a
`;params` suffix found at or after the last `/` (from the start when there
is no `/`). -/
def splitParamsPath (p : String) : String :=
  let cs := p.toList
  let start := match lastIdxOf cs '/' with
    | none => 0
    | some i => i
  match findFrom cs ';' start with
  | none => p
  | some i => String.mk (cs.take i)

/-- The components of `urllib.parse.urlparse` the source reads. -/
structure UrlParts where
  scheme : String
  netloc : String
  path : String
deriving DecidableEq, Repr

/-- `urllib.parse.urlparse`, restricted to the fields the source uses:
split off and lowercase the scheme, split off the netloc after `//`, strip
the fragment (first `#`) then the query (first `?`), and drop `;params`
from the last path segment.  URLs are assumed free of the tab/CR/LF bytes
CPython strips beforehand. -/
def urlparse (url : String) : UrlParts :=
  let sr := splitScheme url
  let scheme := sr.1
  let nr :=
    match sr.2.toList with
    | '/' :: '/' :: _ => splitNetloc sr.2
    | _ => ("", sr.2)
  let afterFrag := beforeChar '#' nr.2
  let afterQuery := beforeChar '?' afterFrag
  ⟨scheme, nr.1, splitParamsPath afterQuery⟩

/-- The components of a POSIX path as `pathlib.PurePosixPath` keeps them:
split on `/`, dropping empty and `.` segments. -/
def posixParts (p : String) : List String :=
  (splitOnChar '/' p).filter (fun c => c ≠ "" && c ≠ ".")

/-- `PurePosixPath(p).name`: the final component, `""` when there is none. -/
def posixName (p : String) : String := ((posixParts p).getLast?).getD ""

/-- `str(PurePosixPath(p))`: the normalized rendering (the rare `//` double
root is not distinguished from `/`). -/
def posixStr (p : String) : String :=
  let parts := posixParts p
  let root := if headIs p '/' then "/" else ""
  if parts.isEmpty then (if root = "/" then "/" else ".")
  else root ++ String.intercalate "/" parts

/-- `str(PurePosixPath(p).parent)`: drop the final component. -/
def posixParentStr (p : String) : String :=
  let parts := (posixParts p).dropLast
  let root := if headIs p '/' then "/" else ""
  if parts.isEmpty then (if root = "/" then "/" else ".")
  else root ++ String.intercalate "/" parts

/-- Digit-string accumulator for `decNatOfChars`. -/
def decDigitsVal : List Char → Nat → Option Nat
  | [], acc => some acc
  | c :: rest, acc =>
    if c.isDigit then decDigitsVal rest (acc * 10 + (c.toNat - 48)) else none

/-- The value of a nonempty string of decimal digits, `none` otherwise. -/
def decNatOfChars (cs : List Char) : Option Nat :=
  match cs with
  | [] => none
  | _ => decDigitsVal cs 0

/-- The whitespace characters `int()` strips from both ends. -/
def isPySpace (c : Char) : Bool :=
  c == ' ' || c == '\t' || c == '\n' || c == '\r' || c == '\x0b' || c == '\x0c'

/-- Strip leading and trailing whitespace from a character list. -/
def stripSpaces (cs : List Char) : List Char :=
  ((cs.dropWhile isPySpace).reverse.dropWhile isPySpace).reverse

/-- Python's `int()` on the strings that occur as header values: optional
surrounding whitespace and an optional sign before decimal digits; `none`
when `int()` would raise `ValueError` (digit-group underscores are not
modelled). -/
def pyInt (s : String) : Option Int :=
  match stripSpaces s.toList with
  | '-' :: rest => (decNatOfChars rest).map (fun n => -(n : Int))
  | '+' :: rest => (decNatOfChars rest).map (fun n => (n : Int))
  | t => (decNatOfChars t).map (fun n => (n : Int))

/-- `size = r.headers.get("content-length"); size = int(size) if size else
None`: an absent or empty (falsy) header yields `None`; otherwise `int()`
parses it or raises. -/
def pySizeOfHeader (h : Option String) : Except PyError (Option Int) :=
  match h with
  | none => .ok none
  | some s =>
    if s = "" then .ok none
    else match pyInt s with
      | some n => .ok (some n)
      | none => .error .valueError

/-- The filename-priority loop of `fetch_http`: the first entry that `is
not None` and has nonzero `len`. -/
def firstNonEmpty : List (Option String) → Option String
  | [] => none
  | none :: rest => firstNonEmpty rest
  | some s :: rest => if s.length ≠ 0 then some s else firstNonEmpty rest

/-- `MimeTypes().guess_type(filename)`: always the two-component
`(type, encoding)` tuple, rendered as a two-element list so that Python's
tuple truthiness (`len != 0`) is represented faithfully. -/
def guess_type (db : MimeDB) (filename : String) : List (Option String) :=
  [db.typeFor filename, db.encodingFor filename]

/-- The `filename_priority` list of `fetch_http`:
`[content_disposition.get("filename*"), content_disposition.get("filename"),
PurePosixPath(urlparse(url).path).name]` (the `or {}` makes both gets
absent when the header is missing; the third entry is always a string). -/
def filename_priority (r : HttpResponse) (url : String) : List (Option String) :=
  [r.contentDisposition.bind ContentDisposition.filenameStar,
   r.contentDisposition.bind ContentDisposition.filename,
   some (posixName (urlparse url).path)]

/-- The destination-resolution step of `fetch_http` (its
`if Path.is_dir(location):` block): when `location` is an existing
directory, the filename-priority loop picks the first usable name and joins
it on; when it finds nothing, `tempfile.NamedTemporaryFile(dir=location,
delete=False)` creates a fresh empty file whose name becomes the
destination. -/
def resolveHttpDest (r : HttpResponse) (url location : String) (w : World) :
    String × World :=
  if isDir w location then
    match firstNonEmpty (filename_priority r url) with
    | some f => (pyPathJoin location f, w)
    | none =>
      let t := tempPathIn location w.nextTemp
      (t, { w with files := (t, []) :: w.files, nextTemp := w.nextTemp + 1 })
  else (location, w)

/-- `fetch_http(url, location)`, given the response `r` that `requests.get(url)`
delivers (the GET itself is counted as a network call).  The destination is
resolved, the body is written there, and the metadata is read from the
headers (`int()` on a malformed `content-length` raises). -/
def fetch_http (r : HttpResponse) (url location : String) (w : World) :
    (Except PyError Response) × World :=
  let w1 := { w with netCalls := w.netCalls + 1 }
  let resolved := resolveHttpDest r url location w1
  let loc := resolved.1
  let w2 := writeFile resolved.2 loc r.body
  let content_type := r.contentType
  match pySizeOfHeader r.contentLength with
  | .error e => (.error e, w2)
  | .ok size =>
    (.ok { location := loc, content_type := content_type, size := size, url := url }, w2)

/-- `fetch_ftp(url, location)`, given the MIME database and the FTP servers
by netloc.  The URL is split into netloc, path, parent directory and leaf
filename; an existing-directory destination gets the leaf filename joined
on.  `FTP(netloc)` plus `ftp.login()` open the control connection (one
network call); `ftp.size(str(path))` is taken verbatim; the content type
comes from `guess_type` on the filename, whose result — always a truthy
2-tuple — has its first component taken.  `ftp.cwd(str(directory))` then
`ftp.retrbinary("RETR " + filename, f.write)` stream into the freshly
opened (truncated) destination file; when the retrieval raises, the
exception propagates before `ftp.close()` runs, so the connection stays
open; on success the connection is closed and the `Response` is built. -/
def fetch_ftp (db : MimeDB) (ftpFor : String → FtpServer) (url location : String)
    (w : World) : (Except PyError Response) × World :=
  let url_parts := urlparse url
  let netloc := url_parts.netloc
  let path := url_parts.path
  let directory := posixParentStr path
  let filename := posixName path
  let loc := if isDir w location then pyPathJoin location filename else location
  let ftp := ftpFor netloc
  let w1 := { w with netCalls := w.netCalls + 1, ftpOpened := w.ftpOpened + 1 }
  let size := ftp.size (posixStr path)
  let mime_type := guess_type db filename
  let content_type := if mime_type.isEmpty then none else mime_type.headD none
  let command := "RETR " ++ filename
  match ftp.retr directory command with
  | none => (.error .transportError, writeFile w1 loc [])
  | some body =>
    let w2 := writeFile w1 loc body
    let w3 := { w2 with ftpClosed := w2.ftpClosed + 1 }
    (.ok { location := loc, content_type := content_type, size := size, url := url }, w3)

/-- The external collaborators a call runs against: what `requests.get`
returns per URL, the FTP server per netloc, and the MIME database. -/
structure Env where
  http : String → HttpResponse
  ftpFor : String → FtpServer
  mime : MimeDB

/-- `fetch(url, location=None)`: when no location is given,
`tempfile.NamedTemporaryFile(delete=False)` creates a fresh empty file that
becomes the destination; then the URL's scheme is looked up in the
`fetchers` table and the matching adapter runs, or
`Exception("Not a supported/known scheme.")` is raised. -/
def fetch (env : Env) (url : String) (location : Option String) (w : World) :
    (Except PyError Response) × World :=
  let resolved :=
    match location with
    | none =>
      let t := tempName w.nextTemp
      (t, { w with files := (t, []) :: w.files, nextTemp := w.nextTemp + 1 })
    | some l => (l, w)
  let loc := resolved.1
  let w1 := resolved.2
  let scheme := (urlparse url).scheme
  let fetchers : List (String × (String → String → World → (Except PyError Response) × World)) :=
    [("ftp", fun u l wx => fetch_ftp env.mime env.ftpFor u l wx),
     ("http", fun u l wx => fetch_http (env.http u) u l wx),
     ("https", fun u l wx => fetch_http (env.http u) u l wx)]
  match fetchers.lookup scheme with
  | some f => f url loc w1
  | none => (.error .unsupportedScheme, w1)

/-- A concrete starting state with one existing directory `/d`. -/
def w0 : World :=
  { dirs := ["/d"], files := [], nextTemp := 0, netCalls := 0, ftpOpened := 0, ftpClosed := 0 }

/-- A concrete MIME database mapping only `f.txt`. -/
def mimeDb0 : MimeDB :=
  { typeFor := fun f => if f = "f.txt" then some "text/plain" else none,
    encodingFor := fun _ => none }

/-- A concrete FTP server that reports size 3 and serves `abc`. -/
def ftpServ0 : FtpServer :=
  { size := fun _ => some 3, retr := fun _ _ => some [97, 98, 99] }

/-- A concrete FTP server whose `RETR` always fails mid-transfer. -/
def ftpServFail : FtpServer :=
  { size := fun _ => some 3, retr := fun _ _ => none }

/-- A concrete plain HTTP response with body `abc`. -/
def httpResp0 : HttpResponse :=
  { status := 200, contentDisposition := none, contentType := some "text/plain",
    contentLength := some "3", body := [97, 98, 99] }

/-- A concrete environment wiring the fixtures together. -/
def env0 : Env :=
  { http := fun _ => httpResp0, ftpFor := fun _ => ftpServ0, mime := mimeDb0 }

/-- A response carrying both `Content-Disposition` filename parameters. -/
def httpRespCd : HttpResponse :=
  { status := 200, contentDisposition := some ⟨some "r.pdf", some "other.bin"⟩,
    contentType := some "application/pdf", contentLength := some "3", body := [97, 98, 99] }

/-- The result of fetching `httpRespCd` into the directory `/d`. -/
def respCd : Response :=
  { location := "/d/r.pdf", content_type := some "application/pdf", size := some 3,
    url := "http://h/u.bin" }

/-- The world after fetching `httpRespCd` into the directory `/d`. -/
def wCd : World :=
  { dirs := ["/d"], files := [("/d/r.pdf", [97, 98, 99])], nextTemp := 0, netCalls := 1,
    ftpOpened := 0, ftpClosed := 0 }

/-- An HTTP response with no metadata headers at all. -/
def httpRespNoMeta : HttpResponse :=
  { status := 200, contentDisposition := none, contentType := none,
    contentLength := none, body := [1, 2] }

/-- An FTP server whose SIZE query yields no size. -/
def ftpServNoSize : FtpServer :=
  { size := fun _ => none, retr := fun _ _ => some [5] }

/-- Result of fetching `httpResp0` at `/out`. -/
def respOut : Response :=
  { location := "/out", content_type := some "text/plain", size := some 3,
    url := "http://h/x" }

/-- World after fetching `httpResp0` at `/out`. -/
def wOut : World :=
  { dirs := ["/d"], files := [("/out", [97, 98, 99])], nextTemp := 0, netCalls := 1,
    ftpOpened := 0, ftpClosed := 0 }

/-- Result of the concrete FTP fetch at the non-directory path `/out2`. -/
def respFtpOut : Response :=
  { location := "/out2", content_type := some "text/plain", size := some 3,
    url := "ftp://host/pub/f.txt" }

/-! Shared helper lemmas. -/

theorem string_length_ne_zero (s : String) : s.length ≠ 0 ↔ s ≠ "" := by
  constructor
  · intro h hh
    subst hh
    simp at h
  · intro h hl
    apply h
    cases s with
    | mk data =>
      cases data with
      | nil => rfl
      | cons c cs => simp [String.length] at hl

theorem fileContent_writeFile (w : World) (p : String) (b : List Nat) :
    fileContent (writeFile w p b) p = some b := by
  simp [fileContent, writeFile, List.find?]

theorem firstNonEmpty_cons_some (s : String) (rest : List (Option String)) (hs : s ≠ "") :
    firstNonEmpty (some s :: rest) = some s := by
  simp [firstNonEmpty, (string_length_ne_zero s).mpr hs]

theorem firstNonEmpty_cons_none (rest : List (Option String)) :
    firstNonEmpty (none :: rest) = firstNonEmpty rest := rfl

theorem firstNonEmpty_cons_empty (rest : List (Option String)) :
    firstNonEmpty (some "" :: rest) = firstNonEmpty rest := by
  simp [firstNonEmpty]

theorem fetch_http_ok_inv (r : HttpResponse) (url location : String) (w : World)
    (resp : Response) (w2 : World)
    (h : fetch_http r url location w = (.ok resp, w2)) :
    resp.url = url ∧ resp.content_type = r.contentType ∧
    pySizeOfHeader r.contentLength = .ok resp.size ∧
    resp.location = (resolveHttpDest r url location { w with netCalls := w.netCalls + 1 }).1 ∧
    w2 = writeFile (resolveHttpDest r url location { w with netCalls := w.netCalls + 1 }).2
           resp.location r.body := by
  cases hsz : pySizeOfHeader r.contentLength with
  | error e => simp [fetch_http, hsz] at h
  | ok size =>
    simp only [fetch_http, hsz] at h
    obtain ⟨h1, h2⟩ := Prod.mk.injEq .. ▸ h
    obtain rfl := (Except.ok.injEq ..).mp h1
    subst h2
    exact ⟨rfl, rfl, rfl, rfl, rfl⟩

theorem resolveHttpDest_not_dir (r : HttpResponse) (url location : String) (w : World)
    (hdir : isDir w location = false) :
    resolveHttpDest r url location w = (location, w) := by
  simp [resolveHttpDest, hdir]

theorem fetch_ftp_ok_inv (db : MimeDB) (ftpFor : String → FtpServer)
    (url location : String) (w : World) (resp : Response) (w2 : World)
    (h : fetch_ftp db ftpFor url location w = (.ok resp, w2)) :
    resp.url = url ∧
    resp.content_type = db.typeFor (posixName (urlparse url).path) ∧
    resp.size = (ftpFor (urlparse url).netloc).size (posixStr (urlparse url).path) ∧
    resp.location = (if isDir w location then
        pyPathJoin location (posixName (urlparse url).path) else location) ∧
    w2.ftpOpened = w.ftpOpened + 1 ∧ w2.ftpClosed = w.ftpClosed + 1 ∧
    (∃ body, (ftpFor (urlparse url).netloc).retr (posixParentStr (urlparse url).path)
        ("RETR " ++ posixName (urlparse url).path) = some body ∧
      fileContent w2 resp.location = some body) := by
  cases hretr : (ftpFor (urlparse url).netloc).retr (posixParentStr (urlparse url).path)
      ("RETR " ++ posixName (urlparse url).path) with
  | none => simp [fetch_ftp, hretr] at h
  | some body =>
    simp only [fetch_ftp, hretr] at h
    obtain ⟨h1, h2⟩ := Prod.mk.injEq .. ▸ h
    obtain rfl := (Except.ok.injEq ..).mp h1
    subst h2
    exact ⟨rfl, rfl, rfl, rfl, rfl, rfl, body, rfl, fileContent_writeFile _ _ _⟩

theorem pySizeOfHeader_error_val (h : Option String) (e : PyError)
    (hh : pySizeOfHeader h = .error e) : e = .valueError := by
  cases h with
  | none => simp [pySizeOfHeader] at hh
  | some s =>
    by_cases hs : s = ""
    · simp [pySizeOfHeader, hs] at hh
    · cases hp : pyInt s with
      | none =>
        simp [pySizeOfHeader, hs, hp] at hh
        exact hh.symm
      | some n => simp [pySizeOfHeader, hs, hp] at hh

theorem fetch_http_fst_ne_unsupported (r : HttpResponse) (url location : String) (w : World) :
    (fetch_http r url location w).1 ≠ .error .unsupportedScheme := by
  cases hsz : pySizeOfHeader r.contentLength with
  | error e =>
    obtain rfl := pySizeOfHeader_error_val _ _ hsz
    simp [fetch_http, hsz]
  | ok size => simp [fetch_http, hsz]

theorem fetch_ftp_fst_ne_unsupported (db : MimeDB) (ftpFor : String → FtpServer)
    (url location : String) (w : World) :
    (fetch_ftp db ftpFor url location w).1 ≠ .error .unsupportedScheme := by
  cases hretr : (ftpFor (urlparse url).netloc).retr (posixParentStr (urlparse url).path)
      ("RETR " ++ posixName (urlparse url).path) with
  | none => simp [fetch_ftp, hretr]
  | some body => simp [fetch_ftp, hretr]

theorem lookup_three_none {α : Type} (s : String) (a b c : α)
    (hs : s ∉ (["ftp", "http", "https"] : List String)) :
    List.lookup s [("ftp", a), ("http", b), ("https", c)] = none := by
  have h1 : s ≠ "ftp" := fun hh => hs (by rw [hh]; simp)
  have h2 : s ≠ "http" := fun hh => hs (by rw [hh]; simp)
  have h3 : s ≠ "https" := fun hh => hs (by rw [hh]; simp)
  simp only [List.lookup, beq_eq_false_iff_ne.mpr h1, beq_eq_false_iff_ne.mpr h2,
    beq_eq_false_iff_ne.mpr h3]

theorem lookup_three_first {α : Type} (s : String) (a b c : α) (hs : s = "ftp") :
    List.lookup s [("ftp", a), ("http", b), ("https", c)] = some a := by
  simp [List.lookup, hs]

theorem lookup_three_second {α : Type} (s : String) (a b c : α) (hs : s = "http") :
    List.lookup s [("ftp", a), ("http", b), ("https", c)] = some b := by
  simp [List.lookup, hs]

theorem lookup_three_third {α : Type} (s : String) (a b c : α) (hs : s = "https") :
    List.lookup s [("ftp", a), ("http", b), ("https", c)] = some c := by
  simp [List.lookup, hs]

theorem fetch_some_ftp (env : Env) (url l : String) (w : World)
    (hs : (urlparse url).scheme = "ftp") :
    fetch env url (some l) w = fetch_ftp env.mime env.ftpFor url l w := by
  simp only [fetch]
  rw [lookup_three_first _ _ _ _ hs]

theorem fetch_some_http (env : Env) (url l : String) (w : World)
    (hs : (urlparse url).scheme = "http") :
    fetch env url (some l) w = fetch_http (env.http url) url l w := by
  simp only [fetch]
  rw [lookup_three_second _ _ _ _ hs]

theorem fetch_some_https (env : Env) (url l : String) (w : World)
    (hs : (urlparse url).scheme = "https") :
    fetch env url (some l) w = fetch_http (env.http url) url l w := by
  simp only [fetch]
  rw [lookup_three_third _ _ _ _ hs]

theorem fetch_some_unsupported (env : Env) (url l : String) (w : World)
    (hs : (urlparse url).scheme ∉ (["ftp", "http", "https"] : List String)) :
    fetch env url (some l) w = (.error .unsupportedScheme, w) := by
  simp only [fetch]
  rw [lookup_three_none _ _ _ _ hs]

theorem fetch_none_eq_some (env : Env) (url : String) (w : World) :
    fetch env url none w =
      fetch env url (some (tempName w.nextTemp))
        { w with files := (tempName w.nextTemp, []) :: w.files,
                 nextTemp := w.nextTemp + 1 } := rfl

/-! Claim theorems. -/

/-- C1: for a successful HTTP(S) fetch into an existing directory, the final
filename is the first present non-empty candidate among the
`Content-Disposition` `filename*` parameter, the plain `filename`
parameter, and the URL's last path segment; when all are absent or empty a
fresh temporary file inside that directory is used; the body is written at
the resulting path. -/
theorem http_dir_filename_priority
    (r : HttpResponse) (url location : String) (w w2 : World) (resp : Response)
    (hdir : isDir w location = true)
    (h : fetch_http r url location w = (.ok resp, w2)) :
    (∀ s, r.contentDisposition.bind ContentDisposition.filenameStar = some s → s ≠ "" →
        resp.location = pyPathJoin location s) ∧
    ((r.contentDisposition.bind ContentDisposition.filenameStar = none ∨
      r.contentDisposition.bind ContentDisposition.filenameStar = some "") →
      ∀ s, r.contentDisposition.bind ContentDisposition.filename = some s → s ≠ "" →
        resp.location = pyPathJoin location s) ∧
    ((r.contentDisposition.bind ContentDisposition.filenameStar = none ∨
      r.contentDisposition.bind ContentDisposition.filenameStar = some "") →
     (r.contentDisposition.bind ContentDisposition.filename = none ∨
      r.contentDisposition.bind ContentDisposition.filename = some "") →
      posixName (urlparse url).path ≠ "" →
        resp.location = pyPathJoin location (posixName (urlparse url).path)) ∧
    ((r.contentDisposition.bind ContentDisposition.filenameStar = none ∨
      r.contentDisposition.bind ContentDisposition.filenameStar = some "") →
     (r.contentDisposition.bind ContentDisposition.filename = none ∨
      r.contentDisposition.bind ContentDisposition.filename = some "") →
      posixName (urlparse url).path = "" →
        resp.location = tempPathIn location w.nextTemp) ∧
    fileContent w2 resp.location = some r.body := by
  obtain ⟨-, -, -, hloc, hw2⟩ := fetch_http_ok_inv r url location w resp w2 h
  have hdir1 : isDir { w with netCalls := w.netCalls + 1 } location = true := hdir
  refine ⟨?_, ?_, ?_, ?_, ?_⟩
  · intro s hs hne
    rw [hloc, resolveHttpDest, if_pos hdir1, filename_priority, hs,
      firstNonEmpty_cons_some s _ hne]
  · rintro (h1 | h1) s hs hne <;>
      rw [hloc, resolveHttpDest, if_pos hdir1, filename_priority, h1, hs] <;>
      first
        | rw [firstNonEmpty_cons_none, firstNonEmpty_cons_some s _ hne]
        | rw [firstNonEmpty_cons_empty, firstNonEmpty_cons_some s _ hne]
  · rintro (h1 | h1) (h2 | h2) hne <;>
      rw [hloc, resolveHttpDest, if_pos hdir1, filename_priority, h1, h2] <;>
      simp only [firstNonEmpty_cons_none, firstNonEmpty_cons_empty,
        firstNonEmpty_cons_some _ _ hne]
  · rintro (h1 | h1) (h2 | h2) hne <;>
      rw [hloc, resolveHttpDest, if_pos hdir1, filename_priority, h1, h2, hne] <;>
      simp [firstNonEmpty]
  · rw [hw2]
    exact fileContent_writeFile _ _ _

/-- Witness for C1 at a concrete input: `/d` is a directory, the fetch
succeeds, and the `filename*` parameter `r.pdf` wins the priority chain. -/
theorem http_dir_filename_priority_witness :
    isDir w0 "/d" = true ∧
    fetch_http httpRespCd "http://h/u.bin" "/d" w0 = (.ok respCd, wCd) ∧
    respCd.location = "/d/r.pdf" ∧ fileContent wCd respCd.location = some httpRespCd.body := by
  refine ⟨rfl, rfl, ?_, ?_⟩
  · have h1 := (http_dir_filename_priority httpRespCd "http://h/u.bin" "/d" w0 wCd respCd rfl
      rfl).1 "r.pdf" rfl (by decide)
    have h2 : pyPathJoin "/d" "r.pdf" = "/d/r.pdf" := rfl
    exact h1.trans h2
  · exact (http_dir_filename_priority httpRespCd "http://h/u.bin" "/d" w0 wCd respCd rfl
      rfl).2.2.2.2

/-- C2 counterexample: with the destination omitted, `fetch` on an
unsupported scheme still creates a temporary file on disk before raising,
so "no file write for any value of the optional destination argument"
fails. -/
theorem fetch_unsupported_tempfile_cex :
    (fetch env0 "svn://example.com/x" none w0).1 = .error .unsupportedScheme ∧
    w0.files = [] ∧
    (fetch env0 "svn://example.com/x" none w0).2.files = [(tempName 0, [])] ∧
    fileContent (fetch env0 "svn://example.com/x" none w0).2 (tempName 0) = some [] :=
  ⟨rfl, rfl, rfl, rfl⟩

/-- C2 (amended): on an unsupported scheme `fetch` raises the
unsupported-scheme error and performs no network call; with a provided
destination the state is completely untouched, while with the destination
omitted exactly one fresh empty temporary file has been created before the
scheme check. -/
theorem fetch_unsupported_no_net_no_write
    (env : Env) (url l : String) (w : World)
    (hs : (urlparse url).scheme ∉ (["ftp", "http", "https"] : List String)) :
    fetch env url (some l) w = (.error .unsupportedScheme, w) ∧
    (fetch env url none w).1 = .error .unsupportedScheme ∧
    (fetch env url none w).2.netCalls = w.netCalls ∧
    (fetch env url none w).2 =
      { w with files := (tempName w.nextTemp, []) :: w.files,
               nextTemp := w.nextTemp + 1 } := by
  have hsome := fetch_some_unsupported env url l w hs
  have hnone := fetch_some_unsupported env url (tempName w.nextTemp)
    { w with files := (tempName w.nextTemp, []) :: w.files, nextTemp := w.nextTemp + 1 } hs
  refine ⟨hsome, ?_, ?_, ?_⟩ <;> rw [fetch_none_eq_some, hnone]

/-- Witness for C2's amended theorem at a concrete unsupported URL. -/
theorem fetch_unsupported_no_net_no_write_witness :
    (urlparse "git://example.com/repo").scheme ∉ (["ftp", "http", "https"] : List String) ∧
    (fetch env0 "git://example.com/repo" (some "/out") w0 = (.error .unsupportedScheme, w0) ∧
     (fetch env0 "git://example.com/repo" none w0).1 = .error .unsupportedScheme ∧
     (fetch env0 "git://example.com/repo" none w0).2.netCalls = w0.netCalls ∧
     (fetch env0 "git://example.com/repo" none w0).2 =
       { w0 with files := (tempName w0.nextTemp, []) :: w0.files,
                 nextTemp := w0.nextTemp + 1 }) :=
  ⟨by decide, fetch_unsupported_no_net_no_write env0 "git://example.com/repo" "/out" w0
    (by decide)⟩

/-- C3 counterexample: `fetch` on `HTTP://example.com/f.txt` (scheme
differing from `http` only in letter case) does not raise the
unsupported-scheme error: `urlparse` lowercases the scheme and the HTTP
adapter runs. -/
theorem uppercase_scheme_dispatch_cex :
    fetch env0 "HTTP://example.com/f.txt" (some "/out") w0 =
      (.ok { location := "/out", content_type := some "text/plain", size := some 3,
             url := "HTTP://example.com/f.txt" },
       { dirs := ["/d"], files := [("/out", [97, 98, 99])], nextTemp := 0, netCalls := 1,
         ftpOpened := 0, ftpClosed := 0 }) ∧
    (fetch env0 "HTTP://example.com/f.txt" (some "/out") w0).1 ≠ .error .unsupportedScheme := by
  constructor
  · rfl
  · intro hh
    rw [show (fetch env0 "HTTP://example.com/f.txt" (some "/out") w0).1 =
        .ok { location := "/out", content_type := some "text/plain", size := some 3,
              url := "HTTP://example.com/f.txt" } from rfl] at hh
    exact Except.noConfusion hh

/-- C3 (amended): dispatch is an exact match of the parsed scheme against
the fixed three-entry table, but `urlparse` has already lowercased the
scheme, so `fetch` raises the unsupported-scheme error exactly when the
lowercased parsed scheme is none of `ftp`, `http`, `https`. -/
theorem fetch_raises_iff_scheme_unsupported (env : Env) (url l : String) (w : World) :
    (fetch env url (some l) w).1 = .error .unsupportedScheme ↔
      (urlparse url).scheme ∉ (["ftp", "http", "https"] : List String) := by
  constructor
  · intro h hmem
    simp only [List.mem_cons, List.mem_singleton, List.not_mem_nil, or_false] at hmem
    rcases hmem with hs | hs | hs
    · rw [fetch_some_ftp env url l w hs] at h
      exact fetch_ftp_fst_ne_unsupported env.mime env.ftpFor url l w h
    · rw [fetch_some_http env url l w hs] at h
      exact fetch_http_fst_ne_unsupported (env.http url) url l w h
    · rw [fetch_some_https env url l w hs] at h
      exact fetch_http_fst_ne_unsupported (env.http url) url l w h
  · intro hs
    rw [fetch_some_unsupported env url l w hs]

/-- C4: missing metadata never fails a fetch: an HTTP response without
`content-type` and `content-length` headers still succeeds, with both
fields absent; an FTP transfer whose SIZE query yields no size still
succeeds, with `size` absent. -/
theorem fetch_metadata_absent_ok
    (r : HttpResponse) (url location : String) (w : World)
    (db : MimeDB) (ftpFor : String → FtpServer) (url2 location2 : String) (w2 : World)
    (body : List Nat)
    (hct : r.contentType = none) (hcl : r.contentLength = none)
    (hsz : (ftpFor (urlparse url2).netloc).size (posixStr (urlparse url2).path) = none)
    (hretr : (ftpFor (urlparse url2).netloc).retr (posixParentStr (urlparse url2).path)
        ("RETR " ++ posixName (urlparse url2).path) = some body) :
    (∃ resp wf, fetch_http r url location w = (.ok resp, wf) ∧
      resp.content_type = none ∧ resp.size = none) ∧
    (∃ resp wf, fetch_ftp db ftpFor url2 location2 w2 = (.ok resp, wf) ∧
      resp.size = none) := by
  constructor
  · have hh : pySizeOfHeader r.contentLength = .ok none := by rw [hcl]; rfl
    simp only [fetch_http, hh]
    exact ⟨_, _, rfl, hct, rfl⟩
  · simp only [fetch_ftp, hretr]
    exact ⟨_, _, rfl, hsz⟩

/-- Witness for C4 at concrete inputs with all metadata missing. -/
theorem fetch_metadata_absent_ok_witness :
    httpRespNoMeta.contentType = none ∧ httpRespNoMeta.contentLength = none ∧
    ftpServNoSize.size (posixStr (urlparse "ftp://host/pub/f.txt").path) = none ∧
    ((∃ resp wf, fetch_http httpRespNoMeta "http://h/x" "/out" w0 = (.ok resp, wf) ∧
       resp.content_type = none ∧ resp.size = none) ∧
     (∃ resp wf,
       fetch_ftp mimeDb0 (fun _ => ftpServNoSize) "ftp://host/pub/f.txt" "/out" w0 =
         (.ok resp, wf) ∧ resp.size = none)) :=
  ⟨rfl, rfl, rfl,
    fetch_metadata_absent_ok httpRespNoMeta "http://h/x" "/out" w0 mimeDb0
      (fun _ => ftpServNoSize) "ftp://host/pub/f.txt" "/out" w0 [5] rfl rfl rfl rfl⟩

/-- C5: contrary to the claim, the FTP control connection is NOT closed on
every exit path: when the `RETR` retrieval raises mid-transfer, the
exception propagates before `ftp.close()` and the connection opened for
this call is left open (`ftpClosed` unchanged). -/
theorem ftp_retr_failure_leaves_conn_open
    (db : MimeDB) (ftpFor : String → FtpServer) (url location : String) (w : World)
    (hretr : (ftpFor (urlparse url).netloc).retr (posixParentStr (urlparse url).path)
        ("RETR " ++ posixName (urlparse url).path) = none) :
    (fetch_ftp db ftpFor url location w).1 = .error .transportError ∧
    (fetch_ftp db ftpFor url location w).2.ftpOpened = w.ftpOpened + 1 ∧
    (fetch_ftp db ftpFor url location w).2.ftpClosed = w.ftpClosed := by
  refine ⟨?_, ?_, ?_⟩ <;> simp only [fetch_ftp, hretr, writeFile]

/-- Witness for C5's divergence at a concrete failing transfer. -/
theorem ftp_retr_failure_leaves_conn_open_witness :
    ((fun _ : String => ftpServFail) (urlparse "ftp://host/pub/f.txt").netloc).retr
        (posixParentStr (urlparse "ftp://host/pub/f.txt").path)
        ("RETR " ++ posixName (urlparse "ftp://host/pub/f.txt").path) = none ∧
    ((fetch_ftp mimeDb0 (fun _ => ftpServFail) "ftp://host/pub/f.txt" "/out" w0).1 =
       .error .transportError ∧
     (fetch_ftp mimeDb0 (fun _ => ftpServFail) "ftp://host/pub/f.txt" "/out" w0).2.ftpOpened =
       w0.ftpOpened + 1 ∧
     (fetch_ftp mimeDb0 (fun _ => ftpServFail) "ftp://host/pub/f.txt" "/out" w0).2.ftpClosed =
       w0.ftpClosed) :=
  ⟨rfl, ftp_retr_failure_leaves_conn_open mimeDb0 (fun _ => ftpServFail)
    "ftp://host/pub/f.txt" "/out" w0 rfl⟩

/-- C6: for a successful HTTP(S) fetch, `size` is the integer parse of the
`content-length` header when present and non-empty, absent when the header
is absent or empty, and never depends on the body actually written. -/
theorem http_size_from_content_length
    (r : HttpResponse) (url location : String) (w w2 : World) (resp : Response)
    (h : fetch_http r url location w = (.ok resp, w2)) :
    (∀ s, r.contentLength = some s → s ≠ "" → resp.size = pyInt s) ∧
    ((r.contentLength = none ∨ r.contentLength = some "") → resp.size = none) ∧
    (∀ b2 resp2 wf2, fetch_http { r with body := b2 } url location w = (.ok resp2, wf2) →
      resp2.size = resp.size) := by
  obtain ⟨-, -, hsz, -, -⟩ := fetch_http_ok_inv r url location w resp w2 h
  refine ⟨?_, ?_, ?_⟩
  · intro s hs hne
    rw [hs] at hsz
    simp only [pySizeOfHeader, if_neg hne] at hsz
    cases hp : pyInt s with
    | none => rw [hp] at hsz; exact absurd hsz (by simp)
    | some n =>
      rw [hp] at hsz
      simp only [Except.ok.injEq] at hsz
      rw [← hsz]
  · rintro (hcl | hcl) <;> rw [hcl] at hsz <;>
      simpa using ((Except.ok.injEq ..).mp hsz).symm
  · intro b2 resp2 wf2 h2
    obtain ⟨-, -, hsz2, -, -⟩ := fetch_http_ok_inv _ _ _ _ _ _ h2
    have : Except.ok (ε := PyError) resp.size = Except.ok resp2.size := hsz ▸ hsz2
    exact ((Except.ok.injEq ..).mp this).symm

/-- Witness for C6 at a concrete response whose `content-length` is `"3"`. -/
theorem http_size_from_content_length_witness :
    fetch_http httpResp0 "http://h/x" "/out" w0 = (.ok respOut, wOut) ∧
    respOut.size = pyInt "3" ∧ pyInt "3" = some 3 := by
  refine ⟨rfl, ?_, rfl⟩
  exact (http_size_from_content_length httpResp0 "http://h/x" "/out" w0 wOut respOut
    rfl).1 "3" rfl (by decide)

/-- C7: for a successful fetch (HTTP or FTP) whose destination is not an
existing directory, the content is written exactly at that path, no
filename inference applies, and the returned location equals that path. -/
theorem nondir_location_exact
    (r : HttpResponse) (url location : String) (w w2 : World) (resp : Response)
    (db : MimeDB) (ftpFor : String → FtpServer) (url2 location2 : String)
    (w3 w4 : World) (resp2 : Response)
    (hdir : isDir w location = false)
    (h : fetch_http r url location w = (.ok resp, w2))
    (hdir2 : isDir w3 location2 = false)
    (h2 : fetch_ftp db ftpFor url2 location2 w3 = (.ok resp2, w4)) :
    resp.location = location ∧ fileContent w2 location = some r.body ∧
    resp2.location = location2 ∧
    (∃ body, (ftpFor (urlparse url2).netloc).retr (posixParentStr (urlparse url2).path)
        ("RETR " ++ posixName (urlparse url2).path) = some body ∧
      fileContent w4 location2 = some body) := by
  obtain ⟨-, -, -, hloc, hw2⟩ := fetch_http_ok_inv r url location w resp w2 h
  have hd1 : isDir { w with netCalls := w.netCalls + 1 } location = false := hdir
  have hres := resolveHttpDest_not_dir r url location { w with netCalls := w.netCalls + 1 } hd1
  obtain ⟨-, -, -, h2loc, -, -, body, hretr, hfc⟩ :=
    fetch_ftp_ok_inv db ftpFor url2 location2 w3 resp2 w4 h2
  have h2loc2 : resp2.location = location2 := by rw [h2loc, if_neg (by simp [hdir2])]
  refine ⟨?_, ?_, h2loc2, body, hretr, ?_⟩
  · rw [hloc, hres]
  · have : resp.location = location := by rw [hloc, hres]
    rw [hw2, this, hres]
    exact fileContent_writeFile _ _ _
  · rw [← h2loc2]
    exact hfc

/-- Witness for C7 at concrete non-directory destinations for both
adapters. -/
theorem nondir_location_exact_witness :
    isDir w0 "/out" = false ∧ isDir w0 "/out2" = false ∧
    fetch_http httpRespCd "http://h/u.bin" "/out" w0 =
      (.ok { location := "/out", content_type := some "application/pdf", size := some 3,
             url := "http://h/u.bin" },
       { dirs := ["/d"], files := [("/out", [97, 98, 99])], nextTemp := 0, netCalls := 1,
         ftpOpened := 0, ftpClosed := 0 }) ∧
    fetch_ftp mimeDb0 (fun _ => ftpServ0) "ftp://host/pub/f.txt" "/out2" w0 =
      (.ok respFtpOut,
       { dirs := ["/d"], files := [("/out2", [97, 98, 99])], nextTemp := 0, netCalls := 1,
         ftpOpened := 1, ftpClosed := 1 }) ∧
    ({ location := "/out", content_type := some "application/pdf", size := some 3,
       url := "http://h/u.bin" } : Response).location = "/out" ∧
    respFtpOut.location = "/out2" := by
  refine ⟨rfl, rfl, rfl, rfl, ?_, ?_⟩
  · exact (nondir_location_exact httpRespCd "http://h/u.bin" "/out" w0
      { dirs := ["/d"], files := [("/out", [97, 98, 99])], nextTemp := 0, netCalls := 1,
        ftpOpened := 0, ftpClosed := 0 }
      { location := "/out", content_type := some "application/pdf", size := some 3,
        url := "http://h/u.bin" }
      mimeDb0 (fun _ => ftpServ0) "ftp://host/pub/f.txt" "/out2" w0
      { dirs := ["/d"], files := [("/out2", [97, 98, 99])], nextTemp := 0, netCalls := 1,
        ftpOpened := 1, ftpClosed := 1 }
      respFtpOut rfl rfl rfl rfl).1
  · exact (nondir_location_exact httpRespCd "http://h/u.bin" "/out" w0
      { dirs := ["/d"], files := [("/out", [97, 98, 99])], nextTemp := 0, netCalls := 1,
        ftpOpened := 0, ftpClosed := 0 }
      { location := "/out", content_type := some "application/pdf", size := some 3,
        url := "http://h/u.bin" }
      mimeDb0 (fun _ => ftpServ0) "ftp://host/pub/f.txt" "/out2" w0
      { dirs := ["/d"], files := [("/out2", [97, 98, 99])], nextTemp := 0, netCalls := 1,
        ftpOpened := 1, ftpClosed := 1 }
      respFtpOut rfl rfl rfl rfl).2.2.1

/-- C8 counterexample: a delivered HTTP response whose `content-length`
header is the non-numeric string `abc` makes the adapter raise `int()`'s
`ValueError` (after having written the body), so not every delivered
response yields a success, and the propagated error is not a
transport-level error of the underlying library. -/
theorem http_malformed_content_length_cex :
    (fetch_http { httpResp0 with contentLength := some "abc" } "http://h/x" "/out" w0).1 =
      .error .valueError ∧
    fileContent
      (fetch_http { httpResp0 with contentLength := some "abc" } "http://h/x" "/out" w0).2
      "/out" = some httpResp0.body :=
  ⟨rfl, rfl⟩

/-- C8 (amended): the HTTP adapter performs no response-status check — its
result is identical under any two status codes, including 404 and 500 —
and for every delivered response whose `content-length` header is absent,
empty, or an integer, it writes the body and returns a success; the only
adapter-raised failure is `int()`'s `ValueError` on a malformed
`content-length`. -/
theorem http_ignores_status
    (r : HttpResponse) (url location : String) (w : World) (s1 s2 : Nat) (sz : Option Int)
    (hsz : pySizeOfHeader r.contentLength = .ok sz) :
    fetch_http { r with status := s1 } url location w =
      fetch_http { r with status := s2 } url location w ∧
    (∃ resp w2, fetch_http r url location w = (.ok resp, w2) ∧
      fileContent w2 resp.location = some r.body ∧ resp.size = sz) := by
  refine ⟨rfl, ?_⟩
  simp only [fetch_http, hsz]
  exact ⟨_, _, rfl, fileContent_writeFile _ _ _, rfl⟩

/-- Witness for C8's amended theorem: a 404 and a 500 response behave
identically and the 404 body is persisted as a success. -/
theorem http_ignores_status_witness :
    pySizeOfHeader httpResp0.contentLength = .ok (some 3) ∧
    (fetch_http { httpResp0 with status := 404 } "http://h/x" "/out" w0 =
       fetch_http { httpResp0 with status := 500 } "http://h/x" "/out" w0 ∧
     (∃ resp w2, fetch_http httpResp0 "http://h/x" "/out" w0 = (.ok resp, w2) ∧
       fileContent w2 resp.location = some httpResp0.body ∧ resp.size = some 3)) :=
  ⟨rfl, http_ignores_status httpResp0 "http://h/x" "/out" w0 404 500 (some 3) rfl⟩

/-- C9: `guess_type` always returns a truthy two-component tuple, so the
guard in `fetch_ftp` always succeeds, the `content_type = None` else-branch
is unreachable, and the resulting `contentType` is exactly the first
component of the MIME guess for the URL's leaf filename — absent precisely
when that filename has no MIME mapping. -/
theorem ftp_mime_from_guess
    (db : MimeDB) (ftpFor : String → FtpServer) (url location : String)
    (w w2 : World) (resp : Response)
    (h : fetch_ftp db ftpFor url location w = (.ok resp, w2)) :
    (guess_type db (posixName (urlparse url).path)).isEmpty = false ∧
    resp.content_type = (guess_type db (posixName (urlparse url).path)).headD none ∧
    resp.content_type = db.typeFor (posixName (urlparse url).path) ∧
    (resp.content_type = none ↔ db.typeFor (posixName (urlparse url).path) = none) := by
  obtain ⟨-, hct, -, -, -, -, -⟩ := fetch_ftp_ok_inv db ftpFor url location w resp w2 h
  exact ⟨rfl, by rw [hct]; rfl, hct, by rw [hct]⟩

/-- Witness for C9 at a concrete FTP fetch of `f.txt`, whose extension is
mapped by the MIME database. -/
theorem ftp_mime_from_guess_witness :
    fetch_ftp mimeDb0 (fun _ => ftpServ0) "ftp://host/pub/f.txt" "/d" w0 =
      (.ok { location := "/d/f.txt", content_type := some "text/plain", size := some 3,
             url := "ftp://host/pub/f.txt" },
       { dirs := ["/d"], files := [("/d/f.txt", [97, 98, 99])], nextTemp := 0, netCalls := 1,
         ftpOpened := 1, ftpClosed := 1 }) ∧
    (guess_type mimeDb0 (posixName (urlparse "ftp://host/pub/f.txt").path)).isEmpty = false ∧
    ({ location := "/d/f.txt", content_type := some "text/plain", size := some 3,
       url := "ftp://host/pub/f.txt" } : Response).content_type =
      mimeDb0.typeFor (posixName (urlparse "ftp://host/pub/f.txt").path) := by
  refine ⟨rfl, ?_, ?_⟩
  · exact (ftp_mime_from_guess mimeDb0 (fun _ => ftpServ0) "ftp://host/pub/f.txt" "/d" w0
      { dirs := ["/d"], files := [("/d/f.txt", [97, 98, 99])], nextTemp := 0, netCalls := 1,
        ftpOpened := 1, ftpClosed := 1 }
      { location := "/d/f.txt", content_type := some "text/plain", size := some 3,
        url := "ftp://host/pub/f.txt" } rfl).1
  · exact (ftp_mime_from_guess mimeDb0 (fun _ => ftpServ0) "ftp://host/pub/f.txt" "/d" w0
      { dirs := ["/d"], files := [("/d/f.txt", [97, 98, 99])], nextTemp := 0, netCalls := 1,
        ftpOpened := 1, ftpClosed := 1 }
      { location := "/d/f.txt", content_type := some "text/plain", size := some 3,
        url := "ftp://host/pub/f.txt" } rfl).2.2.1

/-- C10: every successful `fetch` returns a `Response` whose `url` field is
the input URL string unchanged, over every supported scheme and for both a
provided and an omitted destination. -/
theorem fetch_result_url_eq (env : Env) (url : String) (location : Option String)
    (w w2 : World) (resp : Response)
    (h : fetch env url location w = (.ok resp, w2)) :
    resp.url = url := by
  have hmain : ∀ lx wx, fetch env url (some lx) wx = (.ok resp, w2) → resp.url = url := by
    intro lx wx hx
    by_cases hf : (urlparse url).scheme = "ftp"
    · rw [fetch_some_ftp env url lx wx hf] at hx
      exact (fetch_ftp_ok_inv _ _ _ _ _ _ _ hx).1
    · by_cases hh : (urlparse url).scheme = "http"
      · rw [fetch_some_http env url lx wx hh] at hx
        exact (fetch_http_ok_inv _ _ _ _ _ _ hx).1
      · by_cases hss : (urlparse url).scheme = "https"
        · rw [fetch_some_https env url lx wx hss] at hx
          exact (fetch_http_ok_inv _ _ _ _ _ _ hx).1
        · rw [fetch_some_unsupported env url lx wx (by simp [hf, hh, hss])] at hx
          exact absurd hx (by simp)
  cases location with
  | some l => exact hmain l w h
  | none =>
    rw [fetch_none_eq_some] at h
    exact hmain _ _ h

/-- Witness for C10 at a concrete HTTP fetch. -/
theorem fetch_result_url_eq_witness :
    fetch env0 "http://example.com/files/data.csv" (some "/d") w0 =
      (.ok { location := "/d/data.csv", content_type := some "text/plain", size := some 3,
             url := "http://example.com/files/data.csv" },
       { dirs := ["/d"], files := [("/d/data.csv", [97, 98, 99])], nextTemp := 0,
         netCalls := 1, ftpOpened := 0, ftpClosed := 0 }) ∧
    ({ location := "/d/data.csv", content_type := some "text/plain", size := some 3,
       url := "http://example.com/files/data.csv" } : Response).url =
      "http://example.com/files/data.csv" :=
  ⟨rfl, fetch_result_url_eq env0 "http://example.com/files/data.csv" (some "/d") w0
    { dirs := ["/d"], files := [("/d/data.csv", [97, 98, 99])], nextTemp := 0,
      netCalls := 1, ftpOpened := 0, ftpClosed := 0 }
    { location := "/d/data.csv", content_type := some "text/plain", size := some 3,
      url := "http://example.com/files/data.csv" } rfl⟩
